import Mathlib

/-!
The XCB based toolkit header `xcbt.h`.

A shallow embedding of `Dependencies/IGraphics/xcbt/xcbt.h`.

* C pointers are addresses (`Ptr`, with `NULL = 0`); the objects they point to
  live in a `Heap`.  Dereferencing `NULL` or an address holding no object of the
  expected type is a `Fault`.
* Every accessor macro of the header becomes a function
  `Heap → Ptr → Except Fault _` that evaluates the macro body on its argument.
* Macros that call a function (`xcbt_flush`, `xcbt_embed_dtor`) return the list
  of calls they perform.
* `xcbt_timer_set` and `xcbt_process` are only declared in the header; their
  models are marked as such.
-/

namespace Xcbt

/-! ## Pointers, faults and the heap -/

/-- A C pointer value: an address, `0` being the null pointer. -/
abbrev Ptr := Nat

/-- The null pointer. -/
abbrev NULL : Ptr := 0

/-- The ways evaluating a macro body can go wrong. -/
inductive Fault where
  | nullDeref
  | wildDeref
  | outOfBounds
  deriving DecidableEq, Repr

/-- A fixed-size C array `T a[n]`. -/
structure CArray (α : Type) (n : Nat) where
  elems : List α
  size_eq : elems.length = n

/-- The indexed read `a[i]`; reading at or past the end is a fault. -/
def CArray.read {α : Type} {n : Nat} (a : CArray α n) (i : Nat) : Except Fault α :=
  match a.elems[i]? with
  | some v => .ok v
  | none => .error .outOfBounds

/-! ## Data model (xcbt.h lines 32-67, 404-409) -/

/-- The macro `#define XCBT_COMMON_ATOMS_COUNT 3` -/
abbrev XCBT_COMMON_ATOMS_COUNT : Nat := 3

/-- The type `xcb_atom_t`, a 32-bit identifier. -/
abbrev xcb_atom_t := Nat

/-- The type `xcb_window_t`, a 32-bit XID. -/
abbrev xcb_window_t := Nat

/-- The struct `xcbt_rect`, four `int16_t` members. -/
structure xcbt_rect where
  x : Int
  y : Int
  w : Int
  h : Int
  deriving DecidableEq, Repr

/-- The `struct xcbt_`: the object an `xcbt` points to. -/
structure xcbt_ where
  conn : Ptr
  def_screen : Int
  catoms : CArray xcb_atom_t XCBT_COMMON_ATOMS_COUNT
  xlib_dpy : Ptr

/-- The `struct xcbt_window_`: the object an `xcbt_window` points to. -/
structure xcbt_window_ where
  x : Ptr
  wnd : xcb_window_t
  screen : Int
  prt : xcb_window_t
  pos : xcbt_rect
  mapped : Int
  deriving DecidableEq, Repr

/-- The `struct xcbt_embed_`: four function pointers. -/
structure xcbt_embed_ where
  dtor : Ptr
  set_x : Ptr
  set_timer : Ptr
  watch : Ptr
  deriving DecidableEq, Repr

/-- The objects in memory, by address and type. -/
structure Heap where
  xcbt : Ptr → Option xcbt_
  window : Ptr → Option xcbt_window_
  embed : Ptr → Option xcbt_embed_

/-- The access `p->...`: the object `p` points to, or a fault. -/
def deref {α : Type} (tbl : Ptr → Option α) (p : Ptr) : Except Fault α :=
  if p = NULL then .error .nullDeref
  else match tbl p with
    | some s => .ok s
    | none => .error .wildDeref

/-! ## Cached atoms (xcbt.h lines 81-88) -/

/-- The slot `XCBT_WM_PROTOCOLS` reads. -/
abbrev XCBT_WM_PROTOCOLS_slot : Nat := 0

/-- The slot `XCBT_WM_DELETE_WINDOW` reads. -/
abbrev XCBT_WM_DELETE_WINDOW_slot : Nat := 1

/-- The slot `XCBT_XEMBED_INFO` reads. -/
abbrev XCBT_XEMBED_INFO_slot : Nat := 2

/-- The macro `#define XCBT_WM_PROTOCOLS(x) ((x)->catoms[0])` -/
def XCBT_WM_PROTOCOLS (h : Heap) (x : Ptr) : Except Fault xcb_atom_t := do
  let s ← deref h.xcbt x
  s.catoms.read XCBT_WM_PROTOCOLS_slot

/-- The macro `#define XCBT_WM_DELETE_WINDOW(x) ((x)->catoms[1])` -/
def XCBT_WM_DELETE_WINDOW (h : Heap) (x : Ptr) : Except Fault xcb_atom_t := do
  let s ← deref h.xcbt x
  s.catoms.read XCBT_WM_DELETE_WINDOW_slot

/-- The macro `#define XCBT_XEMBED_INFO(x) ((x->catoms[2]))` -/
def XCBT_XEMBED_INFO (h : Heap) (x : Ptr) : Except Fault xcb_atom_t := do
  let s ← deref h.xcbt x
  s.catoms.read XCBT_XEMBED_INFO_slot

/-! ## Connect flags (xcbt.h lines 90-96) -/

/-- The enumerator `XCBT_USE_GL = 1`. -/
abbrev XCBT_USE_GL : Nat := 1

/-- The enumerator `XCBT_INIT_ATOMS = 2`. -/
abbrev XCBT_INIT_ATOMS : Nat := 2

/-- The `uint32_t` expression `flags | flag`. -/
def flags_or (flags flag : Nat) : Nat := (flags ||| flag) % 2 ^ 32

/-- The `uint32_t` expression `flags & flag`, the test for a flag. -/
def flags_and (flags flag : Nat) : Nat := (flags &&& flag) % 2 ^ 32

/-! ## Connection accessors (xcbt.h lines 98-127) -/

/-- The macro `#define xcbt_conn(x) ((x)?(x)->conn:(xcb_connection_t *)NULL)` -/
def xcbt_conn (h : Heap) (x : Ptr) : Except Fault Ptr :=
  if x ≠ NULL then do
    let s ← deref h.xcbt x
    pure s.conn
  else pure NULL

/-- The macro `#define xcbt_default_screen(x) ((x)?(x)->def_screen:-1)` -/
def xcbt_default_screen (h : Heap) (x : Ptr) : Except Fault Int :=
  if x ≠ NULL then do
    let s ← deref h.xcbt x
    pure s.def_screen
  else pure (-1)

/-- The macro `#define xcbt_display(x) ((x)?(x)->xlib_dpy:NULL)` -/
def xcbt_display (h : Heap) (x : Ptr) : Except Fault Ptr :=
  if x ≠ NULL then do
    let s ← deref h.xcbt x
    pure s.xlib_dpy
  else pure NULL

/-- The members of `struct xcbt_embed_`. -/
inductive EmbedSlot where
  | dtor
  | set_x
  | set_timer
  | watch
  deriving DecidableEq, Repr

/-- A call made by a macro body. `xcb_flush c` is a call of the library
function `xcb_flush` on the pointer `c`; `embed slot fn arg` is a call through
the function pointer `fn` read from the member `slot` of an embedding adapter,
with the single argument `arg`. -/
inductive Call where
  | xcb_flush (c : Ptr)
  | embed (slot : EmbedSlot) (fn : Ptr) (arg : Ptr)
  deriving DecidableEq, Repr

/-- The macro `#define xcbt_flush(x) xcb_flush((xcb_connection_t *)x);`
The cast changes the static type of `x` and leaves its value alone. -/
def xcbt_flush (_h : Heap) (x : Ptr) : Except Fault (List Call) :=
  pure [Call.xcb_flush x]

/-! ## Window accessors (xcbt.h lines 155-194) -/

/-- The macro `#define xcbt_window_conn(xw) ((xw)?(xw)->x->conn:NULL)` -/
def xcbt_window_conn (h : Heap) (xw : Ptr) : Except Fault Ptr :=
  if xw ≠ NULL then do
    let w ← deref h.window xw
    let s ← deref h.xcbt w.x
    pure s.conn
  else pure NULL

/-- The macro `#define xcbt_window_xwnd(xw) ((xw)?(xw)->wnd:(xcb_window_t)0)` -/
def xcbt_window_xwnd (h : Heap) (xw : Ptr) : Except Fault xcb_window_t :=
  if xw ≠ NULL then do
    let w ← deref h.window xw
    pure w.wnd
  else pure 0

/-- The macro `#define xcbt_window_x(xw) ((xw)?(xw)->x:NULL)` -/
def xcbt_window_x (h : Heap) (xw : Ptr) : Except Fault Ptr :=
  if xw ≠ NULL then do
    let w ← deref h.window xw
    pure w.x
  else pure NULL

/-- The macro `#define xcbt_window_screen(xw) ((xw)?(xw)->screen:-1)` -/
def xcbt_window_screen (h : Heap) (xw : Ptr) : Except Fault Int :=
  if xw ≠ NULL then do
    let w ← deref h.window xw
    pure w.screen
  else pure (-1)

/-- The macro `#define xcbt_window_xprt(xw) ((xw)?(xw)->prt:(xcb_window_t)0)` -/
def xcbt_window_xprt (h : Heap) (xw : Ptr) : Except Fault xcb_window_t :=
  if xw ≠ NULL then do
    let w ← deref h.window xw
    pure w.prt
  else pure 0

/-- The expression `xcbt_conn(xcbt_window_x(xw))`. -/
def xcbt_conn_xcbt_window_x (h : Heap) (xw : Ptr) : Except Fault Ptr := do
  let x ← xcbt_window_x h xw
  xcbt_conn h x

/-! ## Embedding adapter (xcbt.h lines 404-415) -/

/-- The macro `#define xcbt_embed_dtor(e) ({if(e) (e)->dtor(e);})` -/
def xcbt_embed_dtor (h : Heap) (e : Ptr) : Except Fault (List Call) :=
  if e ≠ NULL then do
    let s ← deref h.embed e
    pure [Call.embed EmbedSlot.dtor s.dtor e]
  else pure []

/-! ## Timers and processing (xcbt.h lines 351-385)

The header only declares `xcbt_process` and `xcbt_timer_set`; their bodies and
the timer table they work on are in `xcbt.c`. -/

/-- Modelled from the spec: an entry of the timer table of `xcbt.c`, which the
header does not show. "Timer entry: identified by a small positive integer
scoped to one connection; carries an absolute deadline, a callback, and opaque
user data." The deadline is in milliseconds. -/
structure xcbt_timer where
  timer_id : Int
  deadline : Int
  cb : Ptr
  udata : Ptr
  deriving DecidableEq, Repr

/-- Modelled from the spec: the part of a live connection that `xcbt.c` keeps
behind the `xcbt` handle and the header does not show: the clock reading `now`
in milliseconds, the timer table, and the protocol events queued and not yet
dispatched. -/
structure xcbt_state where
  now : Int
  timers : List xcbt_timer
  events : List Nat
  deriving DecidableEq, Repr

/-- Modelled from the spec: the body of `xcbt_timer_set`, declared in the header
and defined in `xcbt.c`. From the header comment: the id is positive, "-1 means
remove all currently defined timers" with `msec` ignored, `msec` is the "time
in milliseconds from now when the timer should be triggerer, when <0 remove
specified by id timer"; from the spec: "replacing a timer with the same
identifier cancels the previous one" and "setting the same identifier twice
overwrites, not appends". An absent connection (`none`) is accepted and left
as it is. -/
def xcbt_timer_set (px : Option xcbt_state) (timer_id msec : Int) (cb udata : Ptr) :
    Option xcbt_state :=
  match px with
  | none => none
  | some st =>
    if timer_id = -1 then some { st with timers := [] }
    else if msec < 0 then
      some { st with timers := st.timers.filter (fun t => decide (t.timer_id ≠ timer_id)) }
    else
      some { st with
        timers := st.timers.filter (fun t => decide (t.timer_id ≠ timer_id)) ++
          [{ timer_id := timer_id, deadline := st.now + msec, cb := cb, udata := udata }] }

/-- A connection state at time 1000 with timer 7 due at 1500 and timer 9 due at
900. -/
def sampleState : xcbt_state :=
  { now := 1000
    timers := [{ timer_id := 7, deadline := 1500, cb := 501, udata := 601 },
               { timer_id := 9, deadline := 900, cb := 502, udata := 602 }]
    events := [11, 12] }

/-- A connection object with all three atoms interned. -/
def sampleConn : xcbt_ :=
  { conn := 8192, def_screen := 0, catoms := ⟨[301, 302, 303], rfl⟩, xlib_dpy := 12288 }

/-- A window on `sampleConn`. -/
def sampleWindow : xcbt_window_ :=
  { x := 4096, wnd := 77, screen := 1, prt := 66, pos := ⟨0, 0, 640, 480⟩, mapped := 1 }

/-- A window whose connection member is the null pointer. -/
def orphanWindow : xcbt_window_ :=
  { x := NULL, wnd := 78, screen := 0, prt := 66, pos := ⟨0, 0, 10, 10⟩, mapped := 0 }

/-- An embedding adapter with four distinct entries. -/
def sampleEmbed : xcbt_embed_ :=
  { dtor := 1001, set_x := 1002, set_timer := 1003, watch := 1004 }

/-- A heap with `sampleConn` at 4096, `sampleWindow` at 20480,
`orphanWindow` at 24576 and `sampleEmbed` at 28672. -/
def sampleHeap : Heap :=
  { xcbt := fun p => if p = 4096 then some sampleConn else none
    window := fun p =>
      if p = 20480 then some sampleWindow
      else if p = 24576 then some orphanWindow
      else none
    embed := fun p => if p = 28672 then some sampleEmbed else none }

/-! ## Helper lemmas -/

theorem deref_present {α : Type} (tbl : Ptr → Option α) (p : Ptr) (s : α)
    (hp : p ≠ NULL) (hs : tbl p = some s) : deref tbl p = .ok s := by
  unfold deref
  rw [if_neg hp, hs]

theorem deref_null {α : Type} (tbl : Ptr → Option α) :
    deref tbl NULL = .error Fault.nullDeref := by
  unfold deref
  rw [if_pos rfl]

/-! ## Theorems: connection accessors -/

/-- C1: each connection accessor returns its neutral default (`NULL`, `-1`,
`NULL`) on the null connection and the stored member (`conn`, `def_screen`,
`xlib_dpy`) on a connection pointing to an object; no case is a fault. -/
theorem conn_accessors_total (h : Heap) (x : Ptr) :
    (x = NULL →
      xcbt_conn h x = .ok NULL ∧ xcbt_default_screen h x = .ok (-1) ∧
      xcbt_display h x = .ok NULL) ∧
    (∀ s : xcbt_, x ≠ NULL → h.xcbt x = some s →
      xcbt_conn h x = .ok s.conn ∧ xcbt_default_screen h x = .ok s.def_screen ∧
      xcbt_display h x = .ok s.xlib_dpy) := by
  constructor
  · intro hx
    subst hx
    exact ⟨rfl, rfl, rfl⟩
  · intro s hx hs
    unfold xcbt_conn xcbt_default_screen xcbt_display
    simp only [if_pos hx, deref_present h.xcbt x s hx hs]
    exact ⟨rfl, rfl, rfl⟩

/-- C1, instance: on `sampleHeap` the accessors give the defaults at `NULL` and
the members of `sampleConn` at 4096. -/
theorem conn_accessors_total_witness :
    (xcbt_conn sampleHeap NULL = .ok NULL ∧ xcbt_default_screen sampleHeap NULL = .ok (-1) ∧
      xcbt_display sampleHeap NULL = .ok NULL) ∧
    (xcbt_conn sampleHeap 4096 = .ok 8192 ∧ xcbt_default_screen sampleHeap 4096 = .ok 0 ∧
      xcbt_display sampleHeap 4096 = .ok 12288) :=
  ⟨(conn_accessors_total sampleHeap NULL).1 rfl,
   (conn_accessors_total sampleHeap 4096).2 sampleConn (by decide) rfl⟩

/-! ## Theorems: window accessors -/

/-- C2: each window accessor returns its neutral default (`0`, `0`, `-1`,
`NULL`) on the null window and the stored member (`wnd`, `prt`, `screen`, `x`)
on a window pointing to an object; no case is a fault. -/
theorem window_accessors_total (h : Heap) (xw : Ptr) :
    (xw = NULL →
      xcbt_window_xwnd h xw = .ok 0 ∧ xcbt_window_xprt h xw = .ok 0 ∧
      xcbt_window_screen h xw = .ok (-1) ∧ xcbt_window_x h xw = .ok NULL) ∧
    (∀ w : xcbt_window_, xw ≠ NULL → h.window xw = some w →
      xcbt_window_xwnd h xw = .ok w.wnd ∧ xcbt_window_xprt h xw = .ok w.prt ∧
      xcbt_window_screen h xw = .ok w.screen ∧ xcbt_window_x h xw = .ok w.x) := by
  constructor
  · intro hx
    subst hx
    exact ⟨rfl, rfl, rfl, rfl⟩
  · intro w hx hw
    unfold xcbt_window_xwnd xcbt_window_xprt xcbt_window_screen xcbt_window_x
    simp only [if_pos hx, deref_present h.window xw w hx hw]
    exact ⟨rfl, rfl, rfl, rfl⟩

/-- C2, instance: on `sampleHeap` the accessors give the defaults at `NULL` and
the members of `sampleWindow` at 20480. -/
theorem window_accessors_total_witness :
    (xcbt_window_xwnd sampleHeap NULL = .ok 0 ∧ xcbt_window_xprt sampleHeap NULL = .ok 0 ∧
      xcbt_window_screen sampleHeap NULL = .ok (-1) ∧
      xcbt_window_x sampleHeap NULL = .ok NULL) ∧
    (xcbt_window_xwnd sampleHeap 20480 = .ok 77 ∧ xcbt_window_xprt sampleHeap 20480 = .ok 66 ∧
      xcbt_window_screen sampleHeap 20480 = .ok 1 ∧
      xcbt_window_x sampleHeap 20480 = .ok 4096) :=
  ⟨(window_accessors_total sampleHeap NULL).1 rfl,
   (window_accessors_total sampleHeap 20480).2 sampleWindow (by decide) rfl⟩

/-! ## Theorems: cached atoms -/

theorem CArray.three {α : Type} (a : CArray α 3) : ∃ u v w, a.elems = [u, v, w] := by
  obtain ⟨l, hl⟩ := a
  match l, hl with
  | [u, v, w], _ => exact ⟨u, v, w, rfl⟩

theorem atoms_present (h : Heap) (x : Ptr) (s : xcbt_) (hx : x ≠ NULL)
    (hs : h.xcbt x = some s) :
    ∃ u v w, s.catoms.elems = [u, v, w] ∧ XCBT_WM_PROTOCOLS h x = .ok u ∧
      XCBT_WM_DELETE_WINDOW h x = .ok v ∧ XCBT_XEMBED_INFO h x = .ok w := by
  obtain ⟨u, v, w, huvw⟩ := CArray.three s.catoms
  refine ⟨u, v, w, huvw, ?_, ?_, ?_⟩
  · unfold XCBT_WM_PROTOCOLS
    rw [deref_present h.xcbt x s hx hs]
    show s.catoms.read 0 = _
    unfold CArray.read
    rw [huvw]
    rfl
  · unfold XCBT_WM_DELETE_WINDOW
    rw [deref_present h.xcbt x s hx hs]
    show s.catoms.read 1 = _
    unfold CArray.read
    rw [huvw]
    rfl
  · unfold XCBT_XEMBED_INFO
    rw [deref_present h.xcbt x s hx hs]
    show s.catoms.read 2 = _
    unfold CArray.read
    rw [huvw]
    rfl

theorem atoms_null (h : Heap) :
    XCBT_WM_PROTOCOLS h NULL = .error Fault.nullDeref ∧
    XCBT_WM_DELETE_WINDOW h NULL = .error Fault.nullDeref ∧
    XCBT_XEMBED_INFO h NULL = .error Fault.nullDeref := by
  unfold XCBT_WM_PROTOCOLS XCBT_WM_DELETE_WINDOW XCBT_XEMBED_INFO
  rw [deref_null]
  exact ⟨rfl, rfl, rfl⟩

/-- C3, as stated, fails: on the null connection each of the three atom
accessors dereferences the null pointer, so none of them yields the atom 0. -/
theorem atom_accessors_null_fault :
    XCBT_WM_PROTOCOLS sampleHeap NULL = .error Fault.nullDeref ∧
    XCBT_WM_DELETE_WINDOW sampleHeap NULL = .error Fault.nullDeref ∧
    XCBT_XEMBED_INFO sampleHeap NULL = .error Fault.nullDeref ∧
    XCBT_WM_PROTOCOLS sampleHeap NULL ≠ .ok 0 ∧
    XCBT_WM_DELETE_WINDOW sampleHeap NULL ≠ .ok 0 ∧
    XCBT_XEMBED_INFO sampleHeap NULL ≠ .ok 0 := by
  obtain ⟨h1, h2, h3⟩ := atoms_null sampleHeap
  refine ⟨h1, h2, h3, ?_, ?_, ?_⟩
  · rw [h1]; intro hc; cases hc
  · rw [h2]; intro hc; cases hc
  · rw [h3]; intro hc; cases hc

/-- C3, amended: `xcbt_conn`, `xcbt_default_screen` and `xcbt_display` carry a
null check and give `NULL`, `-1`, `NULL` on the null connection, while the atom
accessors carry none: on the null connection each of them is a null
dereference, and on a connection pointing to an object each returns its cached
slot without a fault. -/
theorem atom_accessors_unchecked (h : Heap) (x : Ptr) :
    (x = NULL →
      (xcbt_conn h x = .ok NULL ∧ xcbt_default_screen h x = .ok (-1) ∧
        xcbt_display h x = .ok NULL) ∧
      (XCBT_WM_PROTOCOLS h x = .error Fault.nullDeref ∧
        XCBT_WM_DELETE_WINDOW h x = .error Fault.nullDeref ∧
        XCBT_XEMBED_INFO h x = .error Fault.nullDeref)) ∧
    (∀ s : xcbt_, x ≠ NULL → h.xcbt x = some s →
      ∃ u v w, s.catoms.elems = [u, v, w] ∧ XCBT_WM_PROTOCOLS h x = .ok u ∧
        XCBT_WM_DELETE_WINDOW h x = .ok v ∧ XCBT_XEMBED_INFO h x = .ok w) := by
  constructor
  · intro hx
    subst hx
    exact ⟨⟨rfl, rfl, rfl⟩, atoms_null h⟩
  · intro s hx hs
    exact atoms_present h x s hx hs

/-- C3, amended, instance: on `sampleHeap` the checked accessors give their
defaults at `NULL`, the atom accessors fault there, and at 4096 the atom
accessors return the three atoms of `sampleConn`. -/
theorem atom_accessors_unchecked_witness :
    ((xcbt_conn sampleHeap NULL = .ok NULL ∧ xcbt_default_screen sampleHeap NULL = .ok (-1) ∧
        xcbt_display sampleHeap NULL = .ok NULL) ∧
      (XCBT_WM_PROTOCOLS sampleHeap NULL = .error Fault.nullDeref ∧
        XCBT_WM_DELETE_WINDOW sampleHeap NULL = .error Fault.nullDeref ∧
        XCBT_XEMBED_INFO sampleHeap NULL = .error Fault.nullDeref)) ∧
    (∃ u v w, sampleConn.catoms.elems = [u, v, w] ∧ XCBT_WM_PROTOCOLS sampleHeap 4096 = .ok u ∧
        XCBT_WM_DELETE_WINDOW sampleHeap 4096 = .ok v ∧ XCBT_XEMBED_INFO sampleHeap 4096 = .ok w) :=
  ⟨(atom_accessors_unchecked sampleHeap NULL).1 rfl,
   (atom_accessors_unchecked sampleHeap 4096).2 sampleConn (by decide) rfl⟩

/-- C4: the atom table has exactly `XCBT_COMMON_ATOMS_COUNT = 3` slots; the
three accessors read slots 0, 1 and 2, each strictly below the count, pairwise
distinct and together covering every slot; so on a connection pointing to an
object every accessor read is in bounds and returns its own slot. -/
theorem atom_table_matches :
    XCBT_COMMON_ATOMS_COUNT = 3 ∧
    (∀ s : xcbt_, s.catoms.elems.length = XCBT_COMMON_ATOMS_COUNT) ∧
    (XCBT_WM_PROTOCOLS_slot < XCBT_COMMON_ATOMS_COUNT ∧
      XCBT_WM_DELETE_WINDOW_slot < XCBT_COMMON_ATOMS_COUNT ∧
      XCBT_XEMBED_INFO_slot < XCBT_COMMON_ATOMS_COUNT) ∧
    (XCBT_WM_PROTOCOLS_slot ≠ XCBT_WM_DELETE_WINDOW_slot ∧
      XCBT_WM_PROTOCOLS_slot ≠ XCBT_XEMBED_INFO_slot ∧
      XCBT_WM_DELETE_WINDOW_slot ≠ XCBT_XEMBED_INFO_slot) ∧
    (∀ i : Nat, i < XCBT_COMMON_ATOMS_COUNT →
      i = XCBT_WM_PROTOCOLS_slot ∨ i = XCBT_WM_DELETE_WINDOW_slot ∨
      i = XCBT_XEMBED_INFO_slot) ∧
    (∀ (h : Heap) (x : Ptr) (s : xcbt_), x ≠ NULL → h.xcbt x = some s →
      ∃ u v w,
        s.catoms.elems[XCBT_WM_PROTOCOLS_slot]? = some u ∧
        s.catoms.elems[XCBT_WM_DELETE_WINDOW_slot]? = some v ∧
        s.catoms.elems[XCBT_XEMBED_INFO_slot]? = some w ∧
        XCBT_WM_PROTOCOLS h x = .ok u ∧ XCBT_WM_DELETE_WINDOW h x = .ok v ∧
        XCBT_XEMBED_INFO h x = .ok w) := by
  refine ⟨rfl, fun s => s.catoms.size_eq, ⟨by decide, by decide, by decide⟩,
    ⟨by decide, by decide, by decide⟩, ?_, ?_⟩
  · intro i hi
    show i = 0 ∨ i = 1 ∨ i = 2
    have hi3 : i < 3 := hi
    omega
  · intro h x s hx hs
    obtain ⟨u, v, w, huvw, h1, h2, h3⟩ := atoms_present h x s hx hs
    refine ⟨u, v, w, ?_, ?_, ?_, h1, h2, h3⟩
    · rw [huvw]; rfl
    · rw [huvw]; rfl
    · rw [huvw]; rfl

/-- C4, instance: the table of `sampleConn` has three slots and the three
accessors return its three distinct atoms 301, 302, 303. -/
theorem atom_table_matches_witness :
    sampleConn.catoms.elems.length = XCBT_COMMON_ATOMS_COUNT ∧
    (2 = XCBT_WM_PROTOCOLS_slot ∨ 2 = XCBT_WM_DELETE_WINDOW_slot ∨
      2 = XCBT_XEMBED_INFO_slot) ∧
    ∃ u v w,
      sampleConn.catoms.elems[XCBT_WM_PROTOCOLS_slot]? = some u ∧
      sampleConn.catoms.elems[XCBT_WM_DELETE_WINDOW_slot]? = some v ∧
      sampleConn.catoms.elems[XCBT_XEMBED_INFO_slot]? = some w ∧
      XCBT_WM_PROTOCOLS sampleHeap 4096 = .ok u ∧ XCBT_WM_DELETE_WINDOW sampleHeap 4096 = .ok v ∧
      XCBT_XEMBED_INFO sampleHeap 4096 = .ok w :=
  ⟨atom_table_matches.2.1 sampleConn,
   atom_table_matches.2.2.2.2.1 2 (by decide),
   atom_table_matches.2.2.2.2.2 sampleHeap 4096 sampleConn (by decide) rfl⟩

/-! ## Theorems: connect flags -/

theorem testBit_one_eq (i : Nat) : Nat.testBit 1 i = decide (0 = i) := by
  have h := @Nat.testBit_two_pow 0 i
  simpa using h

theorem testBit_two_eq (i : Nat) : Nat.testBit 2 i = decide (1 = i) := by
  have h := @Nat.testBit_two_pow 1 i
  simpa using h

theorem or_one_and_one (f : Nat) : (f ||| 1) &&& 1 = 1 := by
  apply Nat.eq_of_testBit_eq
  intro i
  simp only [Nat.testBit_and, Nat.testBit_or, testBit_one_eq]
  by_cases h : 0 = i
  · subst h; simp
  · simp [h]

theorem or_two_and_two (f : Nat) : (f ||| 2) &&& 2 = 2 := by
  apply Nat.eq_of_testBit_eq
  intro i
  simp only [Nat.testBit_and, Nat.testBit_or, testBit_two_eq]
  by_cases h : 1 = i
  · subst h; simp
  · simp [h]

theorem or_one_and_two (f : Nat) : (f ||| 1) &&& 2 = f &&& 2 := by
  apply Nat.eq_of_testBit_eq
  intro i
  simp only [Nat.testBit_and, Nat.testBit_or, testBit_one_eq, testBit_two_eq]
  by_cases h : 1 = i
  · subst h; simp
  · simp [h]

theorem or_two_and_one (f : Nat) : (f ||| 2) &&& 1 = f &&& 1 := by
  apply Nat.eq_of_testBit_eq
  intro i
  simp only [Nat.testBit_and, Nat.testBit_or, testBit_one_eq, testBit_two_eq]
  by_cases h : 0 = i
  · subst h; simp
  · simp [h]

theorem flags_or_small (f g : Nat) (hf : f < 2 ^ 32) (hg : g < 2 ^ 32) :
    flags_or f g = f ||| g := by
  unfold flags_or
  exact Nat.mod_eq_of_lt (Nat.or_lt_two_pow hf hg)

/-- C7: `XCBT_USE_GL` and `XCBT_INIT_ATOMS` are non-zero, the only bit of the
first is bit 0 and the only bit of the second is bit 1, their bitwise and is 0,
and for every 32-bit word `f` or-ing one flag into `f` makes the and-test of
that flag non-zero and leaves the and-test of the other flag as it was. -/
theorem connect_flags_bit_set :
    XCBT_USE_GL ≠ 0 ∧ XCBT_INIT_ATOMS ≠ 0 ∧
    (∀ i : Nat, XCBT_USE_GL.testBit i = true ↔ i = 0) ∧
    (∀ i : Nat, XCBT_INIT_ATOMS.testBit i = true ↔ i = 1) ∧
    flags_and XCBT_USE_GL XCBT_INIT_ATOMS = 0 ∧
    (∀ f : Nat, f < 2 ^ 32 →
      flags_and (flags_or f XCBT_USE_GL) XCBT_USE_GL ≠ 0 ∧
      flags_and (flags_or f XCBT_USE_GL) XCBT_INIT_ATOMS = flags_and f XCBT_INIT_ATOMS ∧
      flags_and (flags_or f XCBT_INIT_ATOMS) XCBT_INIT_ATOMS ≠ 0 ∧
      flags_and (flags_or f XCBT_INIT_ATOMS) XCBT_USE_GL = flags_and f XCBT_USE_GL) := by
  refine ⟨by decide, by decide, ?_, ?_, by decide, ?_⟩
  · intro i
    show Nat.testBit 1 i = true ↔ i = 0
    rw [testBit_one_eq]
    simp [eq_comm]
  · intro i
    show Nat.testBit 2 i = true ↔ i = 1
    rw [testBit_two_eq]
    simp [eq_comm]
  · intro f hf
    have h1 : flags_or f XCBT_USE_GL = f ||| 1 := flags_or_small f 1 hf (by decide)
    have h2 : flags_or f XCBT_INIT_ATOMS = f ||| 2 := flags_or_small f 2 hf (by decide)
    rw [h1, h2]
    unfold flags_and
    show ((f ||| 1) &&& 1) % 2 ^ 32 ≠ 0 ∧ ((f ||| 1) &&& 2) % 2 ^ 32 = (f &&& 2) % 2 ^ 32 ∧
      ((f ||| 2) &&& 2) % 2 ^ 32 ≠ 0 ∧ ((f ||| 2) &&& 1) % 2 ^ 32 = (f &&& 1) % 2 ^ 32
    rw [or_one_and_one, or_two_and_two, or_one_and_two, or_two_and_one]
    exact ⟨by decide, rfl, by decide, rfl⟩

/-- C7, instance: with `f = 4`, no flag set, or-ing `XCBT_USE_GL` in gives a
word whose GL test is non-zero and whose atoms test is still that of `f`, and
the same with the two flags exchanged. -/
theorem connect_flags_bit_set_witness :
    flags_and (flags_or 4 XCBT_USE_GL) XCBT_USE_GL ≠ 0 ∧
    flags_and (flags_or 4 XCBT_USE_GL) XCBT_INIT_ATOMS = flags_and 4 XCBT_INIT_ATOMS ∧
    flags_and (flags_or 4 XCBT_INIT_ATOMS) XCBT_INIT_ATOMS ≠ 0 ∧
    flags_and (flags_or 4 XCBT_INIT_ATOMS) XCBT_USE_GL = flags_and 4 XCBT_USE_GL :=
  connect_flags_bit_set.2.2.2.2.2 4 (by decide)

/-! ## Theorems: flush and the embedding adapter -/

theorem xcbt_flush_eq (h : Heap) (x : Ptr) : xcbt_flush h x = .ok [Call.xcb_flush x] := rfl

/-- C8, the code at a failing input: for the connection at 4096, whose `conn`
member is the handle 8192, `xcbt_flush` calls `xcb_flush` on 4096, the address
of the connection object, and not on 8192, the handle `xcbt_conn` returns. -/
theorem xcbt_flush_passes_object_address :
    xcbt_flush sampleHeap 4096 = .ok [Call.xcb_flush 4096] ∧
    xcbt_conn sampleHeap 4096 = .ok 8192 ∧
    xcbt_flush sampleHeap 4096 ≠ .ok [Call.xcb_flush 8192] := by
  refine ⟨rfl, rfl, ?_⟩
  rw [xcbt_flush_eq]
  intro hc
  have hl : [Call.xcb_flush 4096] = [Call.xcb_flush 8192] := Except.ok.inj hc
  exact absurd hl (by decide)

/-- C9: `xcbt_embed_dtor(e)` performs no call when `e` is null; when `e` points
to an adapter it performs exactly one call, through the `dtor` member of that
adapter and with `e` as the argument; whatever it performs, every call goes
through the `dtor` member, never through `set_x`, `set_timer` or `watch`. -/
theorem embed_dtor_calls (h : Heap) (e : Ptr) :
    (e = NULL → xcbt_embed_dtor h e = .ok []) ∧
    (∀ s : xcbt_embed_, e ≠ NULL → h.embed e = some s →
      xcbt_embed_dtor h e = .ok [Call.embed EmbedSlot.dtor s.dtor e]) ∧
    (∀ calls : List Call, xcbt_embed_dtor h e = .ok calls →
      ∀ c ∈ calls, ∃ fn, c = Call.embed EmbedSlot.dtor fn e) := by
  refine ⟨?_, ?_, ?_⟩
  · intro he
    subst he
    rfl
  · intro s he hs
    unfold xcbt_embed_dtor
    rw [if_pos he, deref_present h.embed e s he hs]
    rfl
  · intro calls hcalls c hc
    by_cases he : e = NULL
    · subst he
      have hnil : calls = [] := (Except.ok.inj hcalls).symm
      subst hnil
      cases hc
    · unfold xcbt_embed_dtor at hcalls
      rw [if_pos he] at hcalls
      cases hs : h.embed e with
      | none =>
        unfold deref at hcalls
        rw [if_neg he, hs] at hcalls
        cases hcalls
      | some s =>
        rw [deref_present h.embed e s he hs] at hcalls
        have hone : calls = [Call.embed EmbedSlot.dtor s.dtor e] :=
          (Except.ok.inj hcalls).symm
        subst hone
        refine ⟨s.dtor, ?_⟩
        simpa using hc

/-- C9, instance: on `sampleHeap` the macro performs nothing at `NULL` and, at
28672, the single call of entry 1001, the `dtor` of `sampleEmbed`, on 28672. -/
theorem embed_dtor_calls_witness :
    xcbt_embed_dtor sampleHeap NULL = .ok [] ∧
    xcbt_embed_dtor sampleHeap 28672 = .ok [Call.embed EmbedSlot.dtor 1001 28672] :=
  ⟨(embed_dtor_calls sampleHeap NULL).1 rfl,
   (embed_dtor_calls sampleHeap 28672).2.1 sampleEmbed (by decide) rfl⟩

/-! ## Theorems: the two routes from a window to its connection handle -/

/-- C10, as stated, fails: for the window at 24576, whose connection member is
null, `xcbt_window_conn` dereferences the null connection while
`xcbt_conn(xcbt_window_x(xw))` yields `NULL`. -/
theorem window_conn_routes_differ :
    xcbt_window_conn sampleHeap 24576 = .error Fault.nullDeref ∧
    xcbt_conn_xcbt_window_x sampleHeap 24576 = .ok NULL ∧
    xcbt_window_conn sampleHeap 24576 ≠ xcbt_conn_xcbt_window_x sampleHeap 24576 := by
  have h1 : xcbt_window_conn sampleHeap 24576 = .error Fault.nullDeref := rfl
  have h2 : xcbt_conn_xcbt_window_x sampleHeap 24576 = .ok NULL := rfl
  refine ⟨h1, h2, ?_⟩
  rw [h1, h2]
  intro hc
  cases hc

/-- C10, amended: the two routes agree, without a fault, on the null window
(both give `NULL`) and on every window whose connection member points to a
connection object (both give that object's `conn`); on a window whose
connection member is null only `xcbt_conn(xcbt_window_x(xw))` is defined, giving
`NULL`, and `xcbt_window_conn(xw)` is a null dereference. -/
theorem window_conn_routes (h : Heap) (xw : Ptr) :
    (xw = NULL →
      xcbt_window_conn h xw = .ok NULL ∧ xcbt_conn_xcbt_window_x h xw = .ok NULL) ∧
    (∀ (w : xcbt_window_) (s : xcbt_), xw ≠ NULL → h.window xw = some w →
      w.x ≠ NULL → h.xcbt w.x = some s →
      xcbt_window_conn h xw = .ok s.conn ∧ xcbt_conn_xcbt_window_x h xw = .ok s.conn) ∧
    (∀ w : xcbt_window_, xw ≠ NULL → h.window xw = some w → w.x = NULL →
      xcbt_conn_xcbt_window_x h xw = .ok NULL ∧
      xcbt_window_conn h xw = .error Fault.nullDeref) := by
  refine ⟨?_, ?_, ?_⟩
  · intro hx
    subst hx
    exact ⟨rfl, rfl⟩
  · intro w s hx hw hwx hs
    have hxw : xcbt_window_x h xw = .ok w.x := by
      unfold xcbt_window_x
      rw [if_pos hx, deref_present h.window xw w hx hw]
      rfl
    have hc : xcbt_conn h w.x = .ok s.conn := by
      unfold xcbt_conn
      rw [if_pos hwx, deref_present h.xcbt w.x s hwx hs]
      rfl
    constructor
    · unfold xcbt_window_conn
      rw [if_pos hx, deref_present h.window xw w hx hw]
      show (do let s ← deref h.xcbt w.x; pure s.conn) = _
      rw [deref_present h.xcbt w.x s hwx hs]
      rfl
    · unfold xcbt_conn_xcbt_window_x
      rw [hxw]
      exact hc
  · intro w hx hw hwx
    have hxw : xcbt_window_x h xw = .ok w.x := by
      unfold xcbt_window_x
      rw [if_pos hx, deref_present h.window xw w hx hw]
      rfl
    have hc : xcbt_conn h w.x = .ok NULL := by
      rw [hwx]
      rfl
    constructor
    · unfold xcbt_conn_xcbt_window_x
      rw [hxw]
      exact hc
    · unfold xcbt_window_conn
      rw [if_pos hx, deref_present h.window xw w hx hw]
      show (do let s ← deref h.xcbt w.x; pure s.conn) = _
      rw [hwx, deref_null]
      rfl

/-- C10, amended, instance: on `sampleHeap` both routes give `NULL` at the null
window and the handle 8192 at the window 20480, and at the window 24576, whose
connection member is null, the routes are `NULL` and a null dereference. -/
theorem window_conn_routes_witness :
    (xcbt_window_conn sampleHeap NULL = .ok NULL ∧
      xcbt_conn_xcbt_window_x sampleHeap NULL = .ok NULL) ∧
    (xcbt_window_conn sampleHeap 20480 = .ok 8192 ∧
      xcbt_conn_xcbt_window_x sampleHeap 20480 = .ok 8192) ∧
    (xcbt_conn_xcbt_window_x sampleHeap 24576 = .ok NULL ∧
      xcbt_window_conn sampleHeap 24576 = .error Fault.nullDeref) :=
  ⟨(window_conn_routes sampleHeap NULL).1 rfl,
   (window_conn_routes sampleHeap 20480).2.1 sampleWindow sampleConn
     (by decide) rfl (by decide) rfl,
   (window_conn_routes sampleHeap 24576).2.2 orphanWindow (by decide) rfl rfl⟩

/-! ## Theorems: timers -/

theorem filter_same_of_filter_other (l : List xcbt_timer) (i : Int) :
    (l.filter (fun t => decide (t.timer_id ≠ i))).filter (fun t => decide (t.timer_id = i)) =
      [] := by
  induction l with
  | nil => rfl
  | cons a l ih =>
    by_cases h : a.timer_id = i
    · simp [List.filter_cons, h]
    · simp [List.filter_cons, h]

theorem filter_other_idem (l : List xcbt_timer) (i : Int) :
    (l.filter (fun t => decide (t.timer_id ≠ i))).filter (fun t => decide (t.timer_id ≠ i)) =
      l.filter (fun t => decide (t.timer_id ≠ i)) := by
  induction l with
  | nil => rfl
  | cons a l ih =>
    by_cases h : a.timer_id = i
    · simp [List.filter_cons, h]
    · simp [List.filter_cons, h]

/-- C5: on a live connection, `xcbt_timer_set` with a positive id and
`msec ≥ 0` overwrites: afterwards the timers with that id are exactly the one
new entry, carrying the deadline `now + msec`, the callback and the user data
given, so an entry set earlier under the id is gone, and the timers with other
ids are the ones there were before, in the same order. -/
theorem timer_set_overwrites (st : xcbt_state) (timer_id msec : Int) (cb udata : Ptr)
    (hid : 0 < timer_id) (hms : 0 ≤ msec) :
    ∃ st2 : xcbt_state,
      xcbt_timer_set (some st) timer_id msec cb udata = some st2 ∧
      st2.timers.filter (fun t => decide (t.timer_id = timer_id)) =
        [{ timer_id := timer_id, deadline := st.now + msec, cb := cb, udata := udata }] ∧
      (st2.timers.filter (fun t => decide (t.timer_id = timer_id))).length = 1 ∧
      st2.timers.filter (fun t => decide (t.timer_id ≠ timer_id)) =
        st.timers.filter (fun t => decide (t.timer_id ≠ timer_id)) := by
  have h1 : ¬ timer_id = -1 := by omega
  have h2 : ¬ msec < 0 := by omega
  have hsame :
      (st.timers.filter (fun t => decide (t.timer_id ≠ timer_id)) ++
          [({ timer_id := timer_id, deadline := st.now + msec, cb := cb, udata := udata } :
            xcbt_timer)]).filter (fun t => decide (t.timer_id = timer_id)) =
        [{ timer_id := timer_id, deadline := st.now + msec, cb := cb, udata := udata }] := by
    rw [List.filter_append, filter_same_of_filter_other]
    simp [List.filter_cons]
  refine ⟨{ st with
      timers := st.timers.filter (fun t => decide (t.timer_id ≠ timer_id)) ++
        [{ timer_id := timer_id, deadline := st.now + msec, cb := cb, udata := udata }] },
    ?_, hsame, ?_, ?_⟩
  · unfold xcbt_timer_set
    simp only [if_neg h1, if_neg h2]
  · show (List.filter _ (_ ++ _)).length = 1
    rw [hsame]
    rfl
  · show List.filter _ (_ ++ _) = _
    rw [List.filter_append, filter_other_idem]
    simp [List.filter_cons]

/-- C5, instance: in `sampleState`, where timer 7 is due at 1500, setting timer
7 again with 200 ms leaves one timer 7, due at 1200 with the new callback and
data, and leaves timer 9 as it was. -/
theorem timer_set_overwrites_witness :
    ∃ st2 : xcbt_state,
      xcbt_timer_set (some sampleState) 7 200 503 603 = some st2 ∧
      st2.timers.filter (fun t => decide (t.timer_id = 7)) =
        [{ timer_id := 7, deadline := sampleState.now + 200, cb := 503, udata := 603 }] ∧
      (st2.timers.filter (fun t => decide (t.timer_id = 7))).length = 1 ∧
      st2.timers.filter (fun t => decide (t.timer_id ≠ 7)) =
        sampleState.timers.filter (fun t => decide (t.timer_id ≠ 7)) :=
  timer_set_overwrites sampleState 7 200 503 603 (by decide) (by decide)

end Xcbt
